import Mathlib

/-!
# Buzzline: a three-sensor line follower (`src/buzzline.c`)

A shallow embedding of the Arduino sketch.  The global variables of the sketch,
the output pins it drives and a history of the `setMotor` calls form the record
`Robot`; the values the hardware returns to `digitalRead` and `analogRead` are
taken from the input tapes of `Env`, one tape per pin, consumed front to back.
A function that reads a pin returns `none` when the tape of that pin is used up,
which for the button loops means that the button is never pressed.

C `int` and `long` values are modelled by `Int`.  The division `/` of C truncates
toward zero and is `cdiv`.  Signed overflow is undefined in C; readings are in
`0..1023` and speeds in `0..255`, so every sum the sketch forms on such values is
far inside the range of a 16-bit `int` (the sample sums are `long`).

Serial output, `pinMode`, `delay` and the rate-limited telemetry at the end of
`loop` change none of the modelled state and are left out.
-/

namespace Buzzline

/-! ## Data model -/

/-- Digital level `HIGH` of Arduino. -/
abbrev HIGH : Bool := true

/-- Digital level `LOW` of Arduino. -/
abbrev LOW : Bool := false

/-- Number of samples per sensor and phase, `const int SAMPLES = 20` in `calibrate`. -/
abbrev SAMPLES : Nat := 20

/-- Integer division of C: the quotient is truncated toward zero. -/
def cdiv (a b : Int) : Int := Int.tdiv a b

/-- Arduino `constrain(amt, low, high)`:
`((amt)<(low)?(low):((amt)>(high)?(high):(amt)))`. -/
def constrain (amt low high : Int) : Int :=
  if amt < low then low else if amt > high then high else amt

/-- Globals of the sketch (lines 21-32), the output pins it writes, and the
history of `setMotor` calls (oldest first). -/
structure Robot where
  baseSpeed : Int
  turnSpeed : Int
  thresholdLine : Int
  lineIsDark : Bool
  calibWhiteLeft : Int
  calibWhiteCenter : Int
  calibWhiteRight : Int
  calibLineLeft : Int
  calibLineCenter : Int
  calibLineRight : Int
  running : Bool
  lastDirection : Int
  /-- Level last written to `PIN_LED`. -/
  pinLed : Bool
  /-- Level last written to `MOTOR_L_DIR`. -/
  motorLDir : Bool
  /-- Duty last written to `MOTOR_L_PWM`. -/
  motorLPwm : Int
  /-- Level last written to `MOTOR_R_DIR`. -/
  motorRDir : Bool
  /-- Duty last written to `MOTOR_R_PWM`. -/
  motorRPwm : Int
  /-- Arguments of every `setMotor` call so far, oldest first. -/
  motorLog : List (Int × Int)

/-- Values of the globals at power-up (initialisers of lines 21-32), all outputs low. -/
def powerUp : Robot where
  baseSpeed := 200
  turnSpeed := 120
  thresholdLine := 600
  lineIsDark := true
  calibWhiteLeft := 1023
  calibWhiteCenter := 1023
  calibWhiteRight := 1023
  calibLineLeft := 0
  calibLineCenter := 0
  calibLineRight := 0
  running := false
  lastDirection := 0
  pinLed := LOW
  motorLDir := LOW
  motorLPwm := 0
  motorRDir := LOW
  motorRPwm := 0
  motorLog := []

/-- Input pins the sketch reads with `analogRead`. -/
inductive AnalogPin where
  | PIN_MARKER
  | SENSOR_LEFT
  | SENSOR_CENTER
  | SENSOR_RIGHT
  deriving DecidableEq, Repr

/-- Input tapes: what each pin returns on successive reads. -/
structure Env where
  /-- Successive results of `digitalRead(PIN_BUTTON)`; `HIGH` is "not pressed". -/
  button : List Bool
  /-- Successive results of `analogRead(PIN_MARKER)`. -/
  marker : List Int
  /-- Successive results of `analogRead(SENSOR_LEFT)`. -/
  left : List Int
  /-- Successive results of `analogRead(SENSOR_CENTER)`. -/
  center : List Int
  /-- Successive results of `analogRead(SENSOR_RIGHT)`. -/
  right : List Int

/-! ## Input primitives -/

/-- One `analogRead(pin)`: the head of the tape of that pin. -/
def analogRead (e : Env) : AnalogPin → Option (Int × Env)
  | .PIN_MARKER =>
    match e.marker with
    | [] => none
    | v :: t => some (v, { e with marker := t })
  | .SENSOR_LEFT =>
    match e.left with
    | [] => none
    | v :: t => some (v, { e with left := t })
  | .SENSOR_CENTER =>
    match e.center with
    | [] => none
    | v :: t => some (v, { e with center := t })
  | .SENSOR_RIGHT =>
    match e.right with
    | [] => none
    | v :: t => some (v, { e with right := t })

/-- Source `readSensor` (lines 54-56). -/
def readSensor (e : Env) (pin : AnalogPin) : Option (Int × Env) :=
  analogRead e pin

/-- One `digitalRead(PIN_BUTTON)`. -/
def digitalReadButton (e : Env) : Option (Bool × Env) :=
  match e.button with
  | [] => none
  | b :: t => some (b, { e with button := t })

/-- The loop `while (digitalRead(PIN_BUTTON) == HIGH) delay(10);` on the button
tape: reads are dropped up to and including the first `LOW`. -/
def waitPress : List Bool → Option (List Bool)
  | [] => none
  | b :: t => if b = HIGH then waitPress t else some t

/-- The button wait of lines 80, 100, 148 and 154 on the environment. -/
def waitButton (e : Env) : Option Env :=
  match waitPress e.button with
  | none => none
  | some t => some { e with button := t }

/-! ## Operations of the sketch -/

/-- Source `setMotor` (lines 35-52). -/
def setMotor (s : Robot) (left right : Int) : Robot :=
  let s1 : Robot :=
    if left ≥ 0 then
      { s with motorLDir := HIGH, motorLPwm := constrain left 0 255 }
    else
      { s with motorLDir := LOW, motorLPwm := constrain (-left) 0 255 }
  let s2 : Robot :=
    if right ≥ 0 then
      { s1 with motorRDir := HIGH, motorRPwm := constrain right 0 255 }
    else
      { s1 with motorRDir := LOW, motorRPwm := constrain (-right) 0 255 }
  { s2 with motorLog := s2.motorLog ++ [(left, right)] }

/-- Source `detectLineValue` (lines 58-67); it reads the globals `lineIsDark`
and `thresholdLine`. -/
def detectLineValue (s : Robot) (value whiteRef lineRef : Int) : Bool :=
  if s.lineIsDark then
    decide (value < cdiv (whiteRef + lineRef) 2) && decide (value < s.thresholdLine)
  else
    decide (value > cdiv (whiteRef + lineRef) 2) && decide (value > s.thresholdLine)

/-- Source `stopRobot` (lines 69-73). -/
def stopRobot (s : Robot) : Robot :=
  let s1 := setMotor s 0 0
  { s1 with pinLed := LOW, running := false }

/-- The sampling loop of `calibrate` (lines 86-91 and 104-109): `n` rounds, each
adding one reading of the left, center and right sensor to its sum. -/
def sampleLoop : Nat → Env → Int → Int → Int → Option (Int × Int × Int × Env)
  | 0, e, sumL, sumC, sumR => some (sumL, sumC, sumR, e)
  | n + 1, e, sumL, sumC, sumR =>
    match readSensor e .SENSOR_LEFT with
    | none => none
    | some (vL, e1) =>
      match readSensor e1 .SENSOR_CENTER with
      | none => none
      | some (vC, e2) =>
        match readSensor e2 .SENSOR_RIGHT with
        | none => none
        | some (vR, e3) => sampleLoop n e3 (sumL + vL) (sumC + vC) (sumR + vR)

/-- Lines 117-124 of `calibrate`: threshold and polarity from the six references. -/
def adjustThreshold (s : Robot) : Robot :=
  let avgWhite := cdiv (s.calibWhiteLeft + s.calibWhiteCenter + s.calibWhiteRight) 3
  let avgLine := cdiv (s.calibLineLeft + s.calibLineCenter + s.calibLineRight) 3
  { s with thresholdLine := cdiv (avgWhite + avgLine) 2,
           lineIsDark := decide (avgLine < avgWhite) }

/-- Source `calibrate` (lines 76-127). -/
def calibrate (s : Robot) (e : Env) : Option (Robot × Env) :=
  match waitButton e with
  | none => none
  | some e1 =>
    match sampleLoop SAMPLES e1 0 0 0 with
    | none => none
    | some (sumL, sumC, sumR, e2) =>
      let s1 : Robot :=
        { s with calibWhiteLeft := cdiv sumL SAMPLES,
                 calibWhiteCenter := cdiv sumC SAMPLES,
                 calibWhiteRight := cdiv sumR SAMPLES }
      match waitButton e2 with
      | none => none
      | some e3 =>
        match sampleLoop SAMPLES e3 0 0 0 with
        | none => none
        | some (lumL, lumC, lumR, e4) =>
          let s2 : Robot :=
            { s1 with calibLineLeft := cdiv lumL SAMPLES,
                      calibLineCenter := cdiv lumC SAMPLES,
                      calibLineRight := cdiv lumR SAMPLES }
          some (adjustThreshold s2, e4)

/-- Source `setup` (lines 130-160), started from a given state of the globals. -/
def setup (s : Robot) (e : Env) : Option (Robot × Env) :=
  let s0 : Robot := { s with motorLPwm := 0, motorRPwm := 0 }
  match waitButton e with
  | none => none
  | some e1 =>
    match calibrate s0 e1 with
    | none => none
    | some (s1, e2) =>
      match waitButton e2 with
      | none => none
      | some e3 => some ({ s1 with running := true, pinLed := HIGH }, e3)

/-- Lines 183-185 of `loop`: the three detections of a cycle. -/
def detections (s : Robot) (vL vC vR : Int) : Bool × Bool × Bool :=
  (detectLineValue s vL s.calibWhiteLeft s.calibLineLeft,
   detectLineValue s vC s.calibWhiteCenter s.calibLineCenter,
   detectLineValue s vR s.calibWhiteRight s.calibLineRight)

/-- Lines 188-216 of `loop`: the decision block. -/
def decision (s : Robot) (leftOn centerOn rightOn : Bool) : Robot :=
  if centerOn then
    { setMotor s s.baseSpeed s.baseSpeed with lastDirection := 0 }
  else if leftOn && !rightOn then
    { setMotor s s.turnSpeed s.baseSpeed with lastDirection := -1 }
  else if rightOn && !leftOn then
    { setMotor s s.baseSpeed s.turnSpeed with lastDirection := 1 }
  else if leftOn && rightOn then
    { setMotor s s.turnSpeed s.turnSpeed with lastDirection := 0 }
  else
    if s.lastDirection < 0 then
      setMotor s s.turnSpeed (cdiv (-s.turnSpeed) 2)
    else if s.lastDirection > 0 then
      setMotor s (cdiv (-s.turnSpeed) 2) s.turnSpeed
    else
      setMotor s s.turnSpeed s.turnSpeed

/-- Lines 219-222 of `loop`: the marker check on the reading `m`. -/
def markerCheck (s : Robot) (m : Int) : Robot :=
  if m < 50 then stopRobot s else s

/-- Source `loop` (lines 163-237), one iteration. -/
def loop (s : Robot) (e : Env) : Option (Robot × Env) :=
  if !s.running then
    match digitalReadButton e with
    | none => none
    | some (b, e1) =>
      if b = LOW then
        match calibrate s e1 with
        | none => none
        | some (s1, e2) => some ({ s1 with running := true, pinLed := HIGH }, e2)
      else
        some (s, e1)
  else
    match readSensor e .SENSOR_LEFT with
    | none => none
    | some (vL, e1) =>
      match readSensor e1 .SENSOR_CENTER with
      | none => none
      | some (vC, e2) =>
        match readSensor e2 .SENSOR_RIGHT with
        | none => none
        | some (vR, e3) =>
          let det := detections s vL vC vR
          let s1 := decision s det.1 det.2.1 det.2.2
          match analogRead e3 .PIN_MARKER with
          | none => none
          | some (m, e4) => some (markerCheck s1 m, e4)

/-- Test environment for a calibration: the button is pressed at the first read
of each phase, every sensor returns one constant level through the 20 samples of
the background phase and another through the 20 samples of the line phase, and
`rest` is what the pins return afterwards. -/
def calibEnv (wL wC wR lL lC lR : Int) (rest : Env) : Env where
  button := List.replicate 0 HIGH ++ LOW :: (List.replicate 0 HIGH ++ LOW :: rest.button)
  marker := rest.marker
  left := List.replicate 20 wL ++ (List.replicate 20 lL ++ rest.left)
  center := List.replicate 20 wC ++ (List.replicate 20 lC ++ rest.center)
  right := List.replicate 20 wR ++ (List.replicate 20 lR ++ rest.right)

/-- The environment with every tape used up. -/
def doneEnv : Env where
  button := []
  marker := []
  left := []
  center := []
  right := []

/-- Test environment for one line-following cycle: the three sensor readings and
the marker reading, nothing after them. -/
def cycleEnv (vL vC vR m : Int) : Env where
  button := []
  marker := [m]
  left := [vL]
  center := [vC]
  right := [vR]

/-- Test state: the power-up values, running, calibrated to background 900 and
line 100 on all three sensors with threshold 500 (dark line). -/
def scenarioState : Robot :=
  { powerUp with running := true, thresholdLine := 500,
                 calibWhiteLeft := 900, calibWhiteCenter := 900, calibWhiteRight := 900,
                 calibLineLeft := 100, calibLineCenter := 100, calibLineRight := 100 }

/-- Test environment for two cycles: readings (120, 950, 950), then
(950, 950, 950), with marker reading 600 in both. -/
def lineLossEnv : Env where
  button := []
  marker := [600, 600]
  left := [120, 950]
  center := [950, 950]
  right := [950, 950]

/-- The decision blocks of successive cycles, one per detection triple
`(leftOn, centerOn, rightOn)`. -/
def decisions (s : Robot) : List (Bool × Bool × Bool) → Robot
  | [] => s
  | d :: t => decisions (decision s d.1 d.2.1 d.2.2) t

/-- Lines 206-215 of `loop`: the arguments the search branch of the decision
block passes to `setMotor`, chosen by the sign of `lastDirection`. -/
def searchCommand (s : Robot) : Int × Int :=
  if s.lastDirection < 0 then
    (s.turnSpeed, cdiv (-s.turnSpeed) 2)
  else if s.lastDirection > 0 then
    (cdiv (-s.turnSpeed) 2, s.turnSpeed)
  else
    (s.turnSpeed, s.turnSpeed)

/-- Successive iterations of `loop`, `n` of them, as the Arduino runtime calls
it again and again once `setup` has returned. -/
def loops : Nat → Robot → Env → Option (Robot × Env)
  | 0, s, e => some (s, e)
  | n + 1, s, e =>
    match loop s e with
    | none => none
    | some (s1, e1) => loops n s1 e1

/-- The value `v` lies between the smallest and the largest element of `xs`. -/
def withinMinMax (xs : List Int) (v : Int) : Prop :=
  ∀ lo hi, xs.min? = some lo → xs.max? = some hi → lo ≤ v ∧ v ≤ hi

/-- The value `v` is the integer mean of the 20 samples `xs`: their sum divided
by 20, between their minimum and maximum, and in the sensor range 0..1023. -/
def sampleMean (xs : List Int) (v : Int) : Prop :=
  v = xs.sum / 20 ∧ withinMinMax xs v ∧ 0 ≤ v ∧ v ≤ 1023

/-- Test environment for a whole run: the button is pressed at every read, the
three sensors return 900 through the background phase and 100 through the line
phase, then two cycles follow with readings (120, 950, 950) and (950, 950, 950)
and marker readings 600 and 30. -/
def runEnv : Env where
  button := [LOW, LOW, LOW, LOW]
  marker := [600, 30]
  left := List.replicate 20 900 ++ (List.replicate 20 100 ++ [120, 950])
  center := List.replicate 20 900 ++ (List.replicate 20 100 ++ [950, 950])
  right := List.replicate 20 900 ++ (List.replicate 20 100 ++ [950, 950])

/-- Test environment for a restart: the button is pressed at every read and a
calibration on background 900 and line 100 follows. -/
def restartEnv : Env where
  button := [LOW, LOW, LOW]
  marker := [600]
  left := List.replicate 20 900 ++ (List.replicate 20 100 ++ [])
  center := List.replicate 20 900 ++ (List.replicate 20 100 ++ [])
  right := List.replicate 20 900 ++ (List.replicate 20 100 ++ [])

/-! ## Auxiliary facts -/

theorem cdiv_of_nonneg {a b : Int} (ha : 0 ≤ a) (hb : 0 ≤ b) : cdiv a b = a / b := by
  unfold cdiv
  exact Int.tdiv_eq_ediv ha hb

theorem setMotor_motorLog (s : Robot) (l r : Int) :
    (setMotor s l r).motorLog = s.motorLog ++ [(l, r)] := by
  unfold setMotor
  by_cases hl : l ≥ 0 <;> by_cases hr : r ≥ 0 <;> simp [hl, hr]

theorem setMotor_lastDirection (s : Robot) (l r : Int) :
    (setMotor s l r).lastDirection = s.lastDirection := by
  unfold setMotor
  by_cases hl : l ≥ 0 <;> by_cases hr : r ≥ 0 <;> simp [hl, hr]

theorem cdiv_eq_ite (a : Int) {b : Int} (hb : 0 ≤ b) :
    cdiv a b = if 0 ≤ a then a / b else -((-a) / b) := by
  by_cases ha : 0 ≤ a
  · simp [ha, cdiv_of_nonneg ha hb]
  · have hneg : 0 ≤ -a := by omega
    have h := cdiv_of_nonneg hneg hb
    unfold cdiv at h ⊢
    rw [Int.neg_tdiv] at h
    simp only [ha, if_false]
    omega

theorem waitPress_replicate (p : Nat) (t : List Bool) :
    waitPress (List.replicate p HIGH ++ LOW :: t) = some t := by
  induction p with
  | zero => simp [waitPress]
  | succ n ih => simp [List.replicate_succ, waitPress, ih]

theorem sampleLoop_eq (n : Nat) :
    ∀ (e : Env) (a b c : Int) (ls cs rs lt ct rt : List Int),
      ls.length = n → cs.length = n → rs.length = n →
      e.left = ls ++ lt → e.center = cs ++ ct → e.right = rs ++ rt →
      sampleLoop n e a b c
        = some (a + ls.sum, b + cs.sum, c + rs.sum,
                { e with left := lt, center := ct, right := rt }) := by
  induction n with
  | zero =>
    intro e a b c ls cs rs lt ct rt hl hc hr hL hC hR
    rw [List.length_eq_zero] at hl hc hr
    subst hl hc hr
    cases e
    simp only [List.nil_append] at hL hC hR
    subst hL hC hR
    simp [sampleLoop]
  | succ n ih =>
    intro e a b c ls cs rs lt ct rt hl hc hr hL hC hR
    cases ls with
    | nil => simp at hl
    | cons x ls =>
      cases cs with
      | nil => simp at hc
      | cons y cs =>
        cases rs with
        | nil => simp at hr
        | cons z rs =>
          simp only [List.length_cons, Nat.add_right_cancel_iff] at hl hc hr
          simp only [List.cons_append] at hL hC hR
          simp only [sampleLoop, readSensor, analogRead, hL, hC, hR]
          rw [ih _ _ _ _ ls cs rs lt ct rt hl hc hr rfl rfl rfl]
          simp [add_assoc]

theorem calibrate_eq (s : Robot) (e : Env) (p q : Nat) (bt : List Bool)
    (wl wc wr ll lc lr lt ct rt : List Int)
    (hb : e.button = List.replicate p HIGH ++ LOW :: (List.replicate q HIGH ++ LOW :: bt))
    (hwl : wl.length = 20) (hwc : wc.length = 20) (hwr : wr.length = 20)
    (hll : ll.length = 20) (hlc : lc.length = 20) (hlr : lr.length = 20)
    (hL : e.left = wl ++ (ll ++ lt)) (hC : e.center = wc ++ (lc ++ ct))
    (hR : e.right = wr ++ (lr ++ rt)) :
    calibrate s e
      = some (adjustThreshold
                { s with calibWhiteLeft := cdiv wl.sum 20,
                         calibWhiteCenter := cdiv wc.sum 20,
                         calibWhiteRight := cdiv wr.sum 20,
                         calibLineLeft := cdiv ll.sum 20,
                         calibLineCenter := cdiv lc.sum 20,
                         calibLineRight := cdiv lr.sum 20 },
              { e with button := bt, left := lt, center := ct, right := rt }) := by
  have h1 := sampleLoop_eq 20
    { e with button := List.replicate q HIGH ++ LOW :: bt } 0 0 0
    wl wc wr (ll ++ lt) (lc ++ ct) (lr ++ rt) hwl hwc hwr hL hC hR
  have h2 := sampleLoop_eq 20
    { e with button := bt, left := ll ++ lt, center := lc ++ ct, right := lr ++ rt }
    0 0 0 ll lc lr lt ct rt hll hlc hlr rfl rfl rfl
  unfold calibrate
  simp only [waitButton, hb, waitPress_replicate]
  rw [h1]
  simp only [waitPress_replicate]
  rw [h2]
  simp

theorem cdiv_sum_replicate (v : Int) : cdiv (List.replicate 20 v).sum 20 = v := by
  rw [List.sum_replicate, nsmul_eq_mul]
  unfold cdiv
  exact Int.mul_tdiv_cancel_left v (by decide)

theorem calibrate_calibEnv (s : Robot) (wL wC wR lL lC lR : Int) (rest : Env) :
    calibrate s (calibEnv wL wC wR lL lC lR rest)
      = some (adjustThreshold
                { s with calibWhiteLeft := wL, calibWhiteCenter := wC,
                         calibWhiteRight := wR, calibLineLeft := lL,
                         calibLineCenter := lC, calibLineRight := lR },
              rest) := by
  rw [calibrate_eq s (calibEnv wL wC wR lL lC lR rest) 0 0 rest.button
        (List.replicate 20 wL) (List.replicate 20 wC) (List.replicate 20 wR)
        (List.replicate 20 lL) (List.replicate 20 lC) (List.replicate 20 lR)
        rest.left rest.center rest.right
        rfl (by simp) (by simp) (by simp) (by simp) (by simp) (by simp) rfl rfl rfl]
  simp only [cdiv_sum_replicate]
  rfl

theorem calibrate_derived {s s' : Robot} {e e' : Env}
    (h : calibrate s e = some (s', e')) :
    s'.thresholdLine
        = cdiv (cdiv (s'.calibWhiteLeft + s'.calibWhiteCenter + s'.calibWhiteRight) 3
              + cdiv (s'.calibLineLeft + s'.calibLineCenter + s'.calibLineRight) 3) 2 ∧
    s'.lineIsDark
        = decide (cdiv (s'.calibLineLeft + s'.calibLineCenter + s'.calibLineRight) 3
              < cdiv (s'.calibWhiteLeft + s'.calibWhiteCenter + s'.calibWhiteRight) 3) := by
  unfold calibrate at h
  split at h
  · simp at h
  · split at h
    · simp at h
    · split at h
      · simp at h
      · split at h
        · simp at h
        · simp only [Option.some.injEq, Prod.mk.injEq] at h
          obtain ⟨rfl, _⟩ := h
          simp [adjustThreshold]

theorem setMotor_eq (s : Robot) (l r : Int) :
    setMotor s l r
      = { s with motorLDir := decide (l ≥ 0),
                 motorLPwm := if l ≥ 0 then constrain l 0 255 else constrain (-l) 0 255,
                 motorRDir := decide (r ≥ 0),
                 motorRPwm := if r ≥ 0 then constrain r 0 255 else constrain (-r) 0 255,
                 motorLog := s.motorLog ++ [(l, r)] } := by
  unfold setMotor
  by_cases hl : l ≥ 0 <;> by_cases hr : r ≥ 0 <;> simp [hl, hr]

theorem setMotor_baseSpeed (s : Robot) (l r : Int) :
    (setMotor s l r).baseSpeed = s.baseSpeed := by
  unfold setMotor
  by_cases hl : l ≥ 0 <;> by_cases hr : r ≥ 0 <;> simp [hl, hr]

theorem setMotor_turnSpeed (s : Robot) (l r : Int) :
    (setMotor s l r).turnSpeed = s.turnSpeed := by
  unfold setMotor
  by_cases hl : l ≥ 0 <;> by_cases hr : r ≥ 0 <;> simp [hl, hr]

theorem setMotor_running (s : Robot) (l r : Int) :
    (setMotor s l r).running = s.running := by
  unfold setMotor
  by_cases hl : l ≥ 0 <;> by_cases hr : r ≥ 0 <;> simp [hl, hr]

theorem decision_baseSpeed (s : Robot) (l c r : Bool) :
    (decision s l c r).baseSpeed = s.baseSpeed := by
  unfold decision
  split_ifs <;> simp [setMotor_baseSpeed]

theorem decision_running (s : Robot) (l c r : Bool) :
    (decision s l c r).running = s.running := by
  unfold decision
  split_ifs <;> simp [setMotor_running]

theorem decision_emits (s : Robot) (l c r : Bool) :
    ∃ cmd, (decision s l c r).motorLog = s.motorLog ++ [cmd] := by
  unfold decision
  split_ifs <;> simp [setMotor_motorLog]

theorem decision_center (s : Robot) (l r : Bool) :
    (decision s l true r).motorLog = s.motorLog ++ [(s.baseSpeed, s.baseSpeed)] ∧
    (decision s l true r).lastDirection = 0 := by
  simp [decision, setMotor_motorLog]

theorem decisions_center (dets : List (Bool × Bool × Bool)) :
    ∀ s : Robot, (∀ d ∈ dets, d.2.1 = true) →
      (decisions s dets).motorLog
        = s.motorLog ++ List.replicate dets.length (s.baseSpeed, s.baseSpeed) ∧
      (1 ≤ dets.length → (decisions s dets).lastDirection = 0) := by
  induction dets with
  | nil => intro s _; simp [decisions]
  | cons d t ih =>
    intro s hc
    have hd : d.2.1 = true := hc d (List.mem_cons_self d t)
    have ht : ∀ x ∈ t, x.2.1 = true := fun x hx => hc x (List.mem_cons_of_mem d hx)
    obtain ⟨hlog, hmem⟩ := ih (decision s d.1 d.2.1 d.2.2) ht
    rw [hd] at hlog hmem
    have hdc := decision_center s d.1 d.2.2
    constructor
    · simp only [decisions, hd, hlog, hdc.1, decision_baseSpeed, List.length_cons,
        List.replicate_succ, List.append_assoc, List.singleton_append]
    · intro _
      simp only [decisions, hd]
      cases t with
      | nil => simpa [decisions] using hdc.2
      | cons x u => exact hmem (by simp)

theorem loop_running (s : Robot) (e : Env) (vL vC vR m : Int) (lt ct rt mt : List Int)
    (hrun : s.running = true)
    (hL : e.left = vL :: lt) (hC : e.center = vC :: ct) (hR : e.right = vR :: rt)
    (hM : e.marker = m :: mt) :
    loop s e
      = some (markerCheck
                (decision s (detections s vL vC vR).1 (detections s vL vC vR).2.1
                  (detections s vL vC vR).2.2) m,
              { e with marker := mt, left := lt, center := ct, right := rt }) := by
  simp [loop, hrun, readSensor, analogRead, hL, hC, hR, hM]

theorem stopRobot_motorLog (s : Robot) :
    (stopRobot s).motorLog = s.motorLog ++ [(0, 0)] := by
  simp [stopRobot, setMotor_motorLog]

theorem decision_turnSpeed (s : Robot) (l c r : Bool) :
    (decision s l c r).turnSpeed = s.turnSpeed := by
  unfold decision
  split_ifs <;> simp [setMotor_turnSpeed]

theorem decision_none (s : Robot) :
    decision s false false false
      = setMotor s (searchCommand s).1 (searchCommand s).2 := by
  simp only [decision, searchCommand, Bool.false_eq_true, if_false, Bool.and_false,
    Bool.false_and, Bool.not_false]
  split_ifs <;> rfl

theorem decisions_none (n : Nat) :
    ∀ s : Robot,
      (decisions s (List.replicate n (false, false, false))).motorLog
        = s.motorLog ++ List.replicate n (searchCommand s) ∧
      (decisions s (List.replicate n (false, false, false))).lastDirection
        = s.lastDirection := by
  induction n with
  | zero => intro s; simp [decisions]
  | succ n ih =>
    intro s
    have hcmd : searchCommand (setMotor s (searchCommand s).1 (searchCommand s).2)
        = searchCommand s := by
      simp [searchCommand, setMotor_lastDirection, setMotor_turnSpeed]
    obtain ⟨hlog, hmem⟩ := ih (setMotor s (searchCommand s).1 (searchCommand s).2)
    simp only [List.replicate_succ, decisions, decision_none]
    rw [hlog, hmem, hcmd, setMotor_motorLog, setMotor_lastDirection]
    simp

theorem cdiv_neg_half_range {t : Int} (ht : 0 ≤ t ∧ t ≤ 255) :
    -255 ≤ cdiv (-t) 2 ∧ cdiv (-t) 2 ≤ 255 := by
  rw [cdiv_eq_ite (-t) (by decide)]
  split_ifs <;> omega

theorem calibrate_frame {s s' : Robot} {e e' : Env}
    (h : calibrate s e = some (s', e')) :
    s' = { s with calibWhiteLeft := s'.calibWhiteLeft,
                  calibWhiteCenter := s'.calibWhiteCenter,
                  calibWhiteRight := s'.calibWhiteRight,
                  calibLineLeft := s'.calibLineLeft,
                  calibLineCenter := s'.calibLineCenter,
                  calibLineRight := s'.calibLineRight,
                  thresholdLine := s'.thresholdLine,
                  lineIsDark := s'.lineIsDark } := by
  unfold calibrate at h
  split at h
  · simp at h
  · split at h
    · simp at h
    · split at h
      · simp at h
      · split at h
        · simp at h
        · simp only [Option.some.injEq, Prod.mk.injEq] at h
          obtain ⟨rfl, _⟩ := h
          simp [adjustThreshold]

theorem sampleLoop_marker (n : Nat) :
    ∀ (e e' : Env) (a b c a' b' c' : Int),
      sampleLoop n e a b c = some (a', b', c', e') →
      e'.marker = e.marker ∧ e'.button = e.button := by
  induction n with
  | zero =>
    intro e e' a b c a' b' c' h
    simp only [sampleLoop, Option.some.injEq, Prod.mk.injEq] at h
    rw [← h.2.2.2]
    exact ⟨rfl, rfl⟩
  | succ n ih =>
    intro e e' a b c a' b' c' h
    simp only [sampleLoop, readSensor, analogRead] at h
    cases hL : e.left with
    | nil => simp [hL] at h
    | cons x lt =>
      cases hC : e.center with
      | nil => simp [hL, hC] at h
      | cons y ct =>
        cases hR : e.right with
        | nil => simp [hL, hC, hR] at h
        | cons z rt =>
          simp only [hL, hC, hR] at h
          have hrec := ih _ _ _ _ _ _ _ _ h
          exact hrec

theorem calibrate_marker {s s' : Robot} {e e' : Env}
    (h : calibrate s e = some (s', e')) : e'.marker = e.marker := by
  unfold calibrate at h
  cases h1 : waitPress e.button with
  | none => simp [waitButton, h1] at h
  | some b1 =>
    simp only [waitButton, h1] at h
    split at h
    · simp at h
    · rename_i sumL sumC sumR e2 hs1
      have m1 := (sampleLoop_marker _ _ _ _ _ _ _ _ _ hs1).1
      cases h2 : waitPress e2.button with
      | none => simp [h2] at h
      | some b2 =>
        simp only [h2] at h
        split at h
        · simp at h
        · rename_i lumL lumC lumR e4 hs2
          have m2 := (sampleLoop_marker _ _ _ _ _ _ _ _ _ hs2).1
          simp only [Option.some.injEq, Prod.mk.injEq] at h
          rw [← h.2, m2, m1]

theorem loop_stopped_high (s : Robot) (e : Env) (bt : List Bool)
    (hstop : s.running = false) (hb : e.button = HIGH :: bt) :
    loop s e = some (s, { e with button := bt }) := by
  simp [loop, hstop, digitalReadButton, hb]

theorem loop_stopped_low (s : Robot) (e : Env) (bt : List Bool)
    (hstop : s.running = false) (hb : e.button = LOW :: bt) :
    loop s e
      = (calibrate s { e with button := bt }).map
          (fun r => ({ r.1 with running := true, pinLed := HIGH }, r.2)) := by
  simp only [loop, hstop, digitalReadButton, hb]
  cases calibrate s { e with button := bt } <;> simp

theorem loop_cases {s s' : Robot} {e e' : Env} (h : loop s e = some (s', e')) :
    (s.running = false ∧ ∃ bt, e.button = HIGH :: bt ∧ s' = s ∧
      e' = { e with button := bt }) ∨
    (s.running = false ∧ ∃ bt c, e.button = LOW :: bt ∧
      calibrate s { e with button := bt } = some (c, e') ∧
      s' = { c with running := true, pinLed := HIGH }) ∨
    (s.running = true ∧ ∃ l c r m, s' = markerCheck (decision s l c r) m) := by
  cases hrun : s.running with
  | false =>
    cases hb : e.button with
    | nil => simp [loop, hrun, digitalReadButton, hb] at h
    | cons b bt =>
      cases b with
      | true =>
        rw [loop_stopped_high s e bt hrun hb] at h
        simp only [Option.some.injEq, Prod.mk.injEq] at h
        exact Or.inl ⟨rfl, bt, rfl, h.1.symm, h.2.symm⟩
      | false =>
        rw [loop_stopped_low s e bt hrun hb] at h
        cases hc : calibrate s { e with button := bt } with
        | none => simp [hc] at h
        | some r =>
          obtain ⟨c, e2⟩ := r
          simp only [hc, Option.map_some', Option.some.injEq, Prod.mk.injEq] at h
          obtain ⟨h1, h2⟩ := h
          subst h2
          exact Or.inr (Or.inl ⟨rfl, bt, c, rfl, hc, h1.symm⟩)
  | true =>
    refine Or.inr (Or.inr ⟨rfl, ?_⟩)
    simp only [loop, hrun, readSensor] at h
    cases h1 : analogRead e .SENSOR_LEFT with
    | none => simp [h1] at h
    | some r1 =>
      cases h2 : analogRead r1.2 .SENSOR_CENTER with
      | none => simp [h1, h2] at h
      | some r2 =>
        cases h3 : analogRead r2.2 .SENSOR_RIGHT with
        | none => simp [h1, h2, h3] at h
        | some r3 =>
          cases h4 : analogRead r3.2 .PIN_MARKER with
          | none => simp [h1, h2, h3, h4] at h
          | some r4 =>
            simp only [h1, h2, h3, h4, Bool.not_true, Bool.false_eq_true, if_false,
              Option.some.injEq, Prod.mk.injEq] at h
            exact ⟨_, _, _, _, h.1.symm⟩

theorem sampleMean_cdiv (xs : List Int) (hlen : xs.length = 20)
    (hrange : ∀ x ∈ xs, 0 ≤ x ∧ x ≤ 1023) :
    sampleMean xs (cdiv xs.sum 20) := by
  have hlow : ∀ lo : Int, (∀ x ∈ xs, lo ≤ x) → 20 * lo ≤ xs.sum := by
    intro lo h
    have := List.card_nsmul_le_sum xs lo h
    rw [hlen, nsmul_eq_mul] at this
    simpa using this
  have hhigh : ∀ hi : Int, (∀ x ∈ xs, x ≤ hi) → xs.sum ≤ 20 * hi := by
    intro hi h
    have := List.sum_le_card_nsmul xs hi h
    rw [hlen, nsmul_eq_mul] at this
    simpa using this
  have h0 := hlow 0 (fun x hx => (hrange x hx).1)
  have h1 := hhigh 1023 (fun x hx => (hrange x hx).2)
  have hdiv : cdiv xs.sum 20 = xs.sum / 20 := cdiv_of_nonneg (by omega) (by decide)
  rw [hdiv]
  refine ⟨rfl, ?_, by omega, by omega⟩
  intro lo hi hlo hhi
  have hl := hlow lo ((List.le_min?_iff (fun _ _ _ => le_min_iff) hlo).1 le_rfl)
  have hh := hhigh hi ((List.max?_le_iff (fun _ _ _ => max_le_iff) hhi).1 le_rfl)
  omega

theorem decision_pinLed (s : Robot) (l c r : Bool) :
    (decision s l c r).pinLed = s.pinLed := by
  unfold decision
  split_ifs <;> simp [setMotor_eq]

theorem decision_lastDirection_mem (s : Robot) (l c r : Bool)
    (h : s.lastDirection = -1 ∨ s.lastDirection = 0 ∨ s.lastDirection = 1) :
    (decision s l c r).lastDirection = -1 ∨ (decision s l c r).lastDirection = 0 ∨
      (decision s l c r).lastDirection = 1 := by
  unfold decision
  split_ifs <;> simp [setMotor_lastDirection, h]

theorem markerCheck_lastDirection (s : Robot) (m : Int) :
    (markerCheck s m).lastDirection = s.lastDirection := by
  unfold markerCheck
  split_ifs <;> simp [stopRobot, setMotor_lastDirection]

theorem markerCheck_led (s : Robot) (m : Int) (h : s.pinLed = s.running) :
    (markerCheck s m).pinLed = (markerCheck s m).running := by
  unfold markerCheck
  split_ifs
  · simp [stopRobot]
  · exact h

theorem loop_led {s s' : Robot} {e e' : Env} (h : loop s e = some (s', e'))
    (hinv : s.pinLed = s.running) : s'.pinLed = s'.running := by
  rcases loop_cases h with ⟨_, bt, _, hs, _⟩ | ⟨_, bt, c, _, _, hs⟩ | ⟨_, l, c, r, m, hs⟩
  · rw [hs]; exact hinv
  · rw [hs]
  · rw [hs]
    apply markerCheck_led
    rw [decision_pinLed, decision_running]
    exact hinv

theorem loop_memory {s s' : Robot} {e e' : Env} (h : loop s e = some (s', e'))
    (hinv : s.lastDirection = -1 ∨ s.lastDirection = 0 ∨ s.lastDirection = 1) :
    s'.lastDirection = -1 ∨ s'.lastDirection = 0 ∨ s'.lastDirection = 1 := by
  rcases loop_cases h with ⟨_, bt, _, hs, _⟩ | ⟨_, bt, c, _, hc, hs⟩ | ⟨_, l, c, r, m, hs⟩
  · rw [hs]; exact hinv
  · have hf := calibrate_frame hc
    have hl : s'.lastDirection = s.lastDirection := by rw [hs, hf]
    rw [hl]; exact hinv
  · rw [hs, markerCheck_lastDirection]
    exact decision_lastDirection_mem s l c r hinv

theorem loops_led (n : Nat) :
    ∀ (s s' : Robot) (e e' : Env), loops n s e = some (s', e') →
      s.pinLed = s.running → s'.pinLed = s'.running := by
  induction n with
  | zero =>
    intro s s' e e' h hinv
    simp only [loops, Option.some.injEq, Prod.mk.injEq] at h
    rw [← h.1]; exact hinv
  | succ n ih =>
    intro s s' e e' h hinv
    simp only [loops] at h
    cases h1 : loop s e with
    | none => simp [h1] at h
    | some r =>
      obtain ⟨s1, e1⟩ := r
      simp only [h1] at h
      exact ih s1 s' e1 e' h (loop_led h1 hinv)

theorem loops_memory (n : Nat) :
    ∀ (s s' : Robot) (e e' : Env), loops n s e = some (s', e') →
      (s.lastDirection = -1 ∨ s.lastDirection = 0 ∨ s.lastDirection = 1) →
      (s'.lastDirection = -1 ∨ s'.lastDirection = 0 ∨ s'.lastDirection = 1) := by
  induction n with
  | zero =>
    intro s s' e e' h hinv
    simp only [loops, Option.some.injEq, Prod.mk.injEq] at h
    rw [← h.1]; exact hinv
  | succ n ih =>
    intro s s' e e' h hinv
    simp only [loops] at h
    cases h1 : loop s e with
    | none => simp [h1] at h
    | some r =>
      obtain ⟨s1, e1⟩ := r
      simp only [h1] at h
      exact ih s1 s' e1 e' h (loop_memory h1 hinv)

theorem setup_end {s s1 : Robot} {e e1 : Env} (h : setup s e = some (s1, e1)) :
    s1.pinLed = HIGH ∧ s1.running = true ∧ s1.lastDirection = s.lastDirection := by
  unfold setup at h
  cases h1 : waitButton e with
  | none => simp [h1] at h
  | some e2 =>
    simp only [h1] at h
    cases h2 : calibrate { s with motorLPwm := 0, motorRPwm := 0 } e2 with
    | none => simp [h2] at h
    | some r =>
      obtain ⟨c, e3⟩ := r
      simp only [h2] at h
      cases h3 : waitButton e3 with
      | none => simp [h3] at h
      | some e4 =>
        simp only [h3, Option.some.injEq, Prod.mk.injEq] at h
        have hf := calibrate_frame h2
        have hl : c.lastDirection = s.lastDirection := by rw [hf]
        rw [← h.1]
        exact ⟨rfl, rfl, hl⟩

/-! ## The direction resolver (decision block of `loop`) -/

/-- C1: for each of the 8 detection triples, every prior memory in {-1, 0, 1} and
all speeds, the decision block appends exactly the command of the table of the
direction resolver to the motor history and leaves the memory the table names;
the reverse component is the negated turn speed divided by 2 with truncation
toward zero, which is -60 at turn speed 121. -/
theorem decision_table (s : Robot) (l c r : Bool) :
    (c = true →
      (decision s l c r).motorLog = s.motorLog ++ [(s.baseSpeed, s.baseSpeed)] ∧
      (decision s l c r).lastDirection = 0) ∧
    (c = false → l = true → r = false →
      (decision s l c r).motorLog = s.motorLog ++ [(s.turnSpeed, s.baseSpeed)] ∧
      (decision s l c r).lastDirection = -1) ∧
    (c = false → r = true → l = false →
      (decision s l c r).motorLog = s.motorLog ++ [(s.baseSpeed, s.turnSpeed)] ∧
      (decision s l c r).lastDirection = 1) ∧
    (c = false → l = true → r = true →
      (decision s l c r).motorLog = s.motorLog ++ [(s.turnSpeed, s.turnSpeed)] ∧
      (decision s l c r).lastDirection = 0) ∧
    (c = false → l = false → r = false → s.lastDirection = -1 →
      (decision s l c r).motorLog
        = s.motorLog ++ [(s.turnSpeed, Int.tdiv (-s.turnSpeed) 2)]) ∧
    (c = false → l = false → r = false → s.lastDirection = 1 →
      (decision s l c r).motorLog
        = s.motorLog ++ [(Int.tdiv (-s.turnSpeed) 2, s.turnSpeed)]) ∧
    (c = false → l = false → r = false → s.lastDirection = 0 →
      (decision s l c r).motorLog = s.motorLog ++ [(s.turnSpeed, s.turnSpeed)]) ∧
    cdiv (-121) 2 = -60 := by
  refine ⟨?_, ?_, ?_, ?_, ?_, ?_, ?_, ?_⟩
  · intro hc
    simp [decision, hc, setMotor_motorLog]
  · intro hc hl hr
    simp [decision, hc, hl, hr, setMotor_motorLog]
  · intro hc hr hl
    simp [decision, hc, hl, hr, setMotor_motorLog]
  · intro hc hl hr
    simp [decision, hc, hl, hr, setMotor_motorLog]
  · intro hc hl hr hd
    simp [decision, hc, hl, hr, hd, setMotor_motorLog, cdiv]
  · intro hc hl hr hd
    simp [decision, hc, hl, hr, hd, setMotor_motorLog, cdiv]
  · intro hc hl hr hd
    simp [decision, hc, hl, hr, hd, setMotor_motorLog]
  · decide

/-- C7: a cycle whose center detection is true appends (baseSpeed, baseSpeed) to
the motor history and sets the memory to 0 (CENTER), whatever the side
detections and the prior memory; any run of cycles that all have the center
detection true appends one (baseSpeed, baseSpeed) per cycle and, when not empty,
ends with memory 0; and a second such cycle leaves the memory of the first. -/
theorem center_dominance (s : Robot) (l r l' r' : Bool)
    (dets : List (Bool × Bool × Bool)) (hc : ∀ d ∈ dets, d.2.1 = true) :
    ((decision s l true r).motorLog = s.motorLog ++ [(s.baseSpeed, s.baseSpeed)] ∧
      (decision s l true r).lastDirection = 0) ∧
    (decisions s dets).motorLog
      = s.motorLog ++ List.replicate dets.length (s.baseSpeed, s.baseSpeed) ∧
    (1 ≤ dets.length → (decisions s dets).lastDirection = 0) ∧
    (decision (decision s l true r) l' true r').lastDirection
      = (decision s l true r).lastDirection := by
  refine ⟨decision_center s l r, (decisions_center dets s hc).1,
    (decisions_center dets s hc).2, ?_⟩
  rw [(decision_center s l r).2, (decision_center _ l' r').2]

/-- Witness of C7: three cycles from power-up with center detected and the side
detections varying. -/
theorem center_dominance_witness :
    (decisions powerUp [(true, true, false), (false, true, false), (true, true, true)]).motorLog
      = [(200, 200), (200, 200), (200, 200)] :=
  (center_dominance powerUp true false false true
    [(true, true, false), (false, true, false), (true, true, true)]
    (by decide)).2.1

/-- C17: when no sensor detects the line the decision block leaves the memory
as it was; so from every prior memory in {-1, 0, 1}, any number of consecutive
cycles without detection all emit the one command the search rule gives for
that memory, and the memory is still the same after them. -/
theorem search_persistent (s : Robot) (n : Nat)
    (hm : s.lastDirection = -1 ∨ s.lastDirection = 0 ∨ s.lastDirection = 1) :
    (decision s false false false).lastDirection = s.lastDirection ∧
    (decisions s (List.replicate n (false, false, false))).motorLog
      = s.motorLog ++ List.replicate n
          (if s.lastDirection = -1 then (s.turnSpeed, Int.tdiv (-s.turnSpeed) 2)
           else if s.lastDirection = 1 then (Int.tdiv (-s.turnSpeed) 2, s.turnSpeed)
           else (s.turnSpeed, s.turnSpeed)) ∧
    (decisions s (List.replicate n (false, false, false))).lastDirection
      = s.lastDirection := by
  have hcmd : searchCommand s
      = (if s.lastDirection = -1 then (s.turnSpeed, Int.tdiv (-s.turnSpeed) 2)
         else if s.lastDirection = 1 then (Int.tdiv (-s.turnSpeed) 2, s.turnSpeed)
         else (s.turnSpeed, s.turnSpeed)) := by
    rcases hm with h | h | h <;> simp [searchCommand, h, cdiv]
  refine ⟨?_, ?_, (decisions_none n s).2⟩
  · rw [decision_none, setMotor_lastDirection]
  · rw [(decisions_none n s).1, hcmd]

/-- Witness of C17: three cycles without detection from the scenario state with
memory -1 (turn speed 120). -/
theorem search_persistent_witness :
    (decisions { scenarioState with lastDirection := -1 }
        (List.replicate 3 (false, false, false))).motorLog
      = [(120, -60), (120, -60), (120, -60)] :=
  (search_persistent { scenarioState with lastDirection := -1 } 3 (Or.inl rfl)).2.1

/-- C14: with base and turn speed in 0..255, the command the decision block
emits has both components in [-255, 255], for every detection triple and every
memory value; and for arguments in [-255, 255], `setMotor` writes the absolute
value of each argument as PWM duty, which `constrain` leaves unchanged and which
is in 0..255, and sets the direction pin HIGH exactly when the argument is
not negative. -/
theorem motor_command_range (s : Robot) (l c r : Bool) (left right : Int)
    (hb : 0 ≤ s.baseSpeed ∧ s.baseSpeed ≤ 255)
    (ht : 0 ≤ s.turnSpeed ∧ s.turnSpeed ≤ 255)
    (hl : -255 ≤ left ∧ left ≤ 255) (hr : -255 ≤ right ∧ right ≤ 255) :
    (∃ cmd, (decision s l c r).motorLog = s.motorLog ++ [cmd] ∧
      (-255 ≤ cmd.1 ∧ cmd.1 ≤ 255) ∧ (-255 ≤ cmd.2 ∧ cmd.2 ≤ 255)) ∧
    ((setMotor s left right).motorLPwm = |left| ∧
      constrain |left| 0 255 = |left| ∧
      0 ≤ (setMotor s left right).motorLPwm ∧ (setMotor s left right).motorLPwm ≤ 255 ∧
      ((setMotor s left right).motorLDir = HIGH ↔ left ≥ 0)) ∧
    ((setMotor s left right).motorRPwm = |right| ∧
      constrain |right| 0 255 = |right| ∧
      0 ≤ (setMotor s left right).motorRPwm ∧ (setMotor s left right).motorRPwm ≤ 255 ∧
      ((setMotor s left right).motorRDir = HIGH ↔ right ≥ 0)) := by
  have hneg := cdiv_neg_half_range ht
  refine ⟨?_, ?_, ?_⟩
  · unfold decision
    split_ifs <;> simp [setMotor_motorLog] <;> omega
  · rw [setMotor_eq]
    by_cases h : left ≥ 0
    · have habs : |left| = left := abs_of_nonneg h
      simp only [h, if_true, habs, constrain, decide_True]
      refine ⟨?_, ?_, ?_, ?_, ?_⟩ <;> first | (split_ifs <;> omega) | simp [h]
    · have habs : |left| = -left := abs_of_neg (by omega)
      simp only [h, if_false, habs, constrain, decide_False]
      refine ⟨?_, ?_, ?_, ?_, ?_⟩ <;> first | (split_ifs <;> omega) | simp [h]
  · rw [setMotor_eq]
    by_cases h : right ≥ 0
    · have habs : |right| = right := abs_of_nonneg h
      simp only [h, if_true, habs, constrain, decide_True]
      refine ⟨?_, ?_, ?_, ?_, ?_⟩ <;> first | (split_ifs <;> omega) | simp [h]
    · have habs : |right| = -right := abs_of_neg (by omega)
      simp only [h, if_false, habs, constrain, decide_False]
      refine ⟨?_, ?_, ?_, ?_, ?_⟩ <;> first | (split_ifs <;> omega) | simp [h]

/-- Witness of C14: the power-up speeds 200 and 120, no detection, and the
motor arguments (120, -60). -/
theorem motor_command_range_witness :
    (setMotor powerUp 120 (-60)).motorLPwm = |(120 : Int)| ∧
    (setMotor powerUp 120 (-60)).motorRPwm = |(-60 : Int)| :=
  ⟨(motor_command_range powerUp false false false 120 (-60)
      (by decide) (by decide) (by decide) (by decide)).2.1.1,
   (motor_command_range powerUp false false false 120 (-60)
      (by decide) (by decide) (by decide) (by decide)).2.2.1⟩

/-! ## The line detector -/

/-- C2: with white and line reference in 0..1023, any reading and any threshold,
`detectLineValue` is true exactly when the reading is below both the midpoint
`(whiteRef + lineRef) / 2` and the threshold (dark line), resp. above both
(light line); so it is false as soon as one of the two comparisons fails. -/
theorem detectLineValue_spec (s : Robot) (reading whiteRef lineRef : Int)
    (hw : 0 ≤ whiteRef ∧ whiteRef ≤ 1023)
    (hl : 0 ≤ lineRef ∧ lineRef ≤ 1023) :
    (s.lineIsDark = true →
      (detectLineValue s reading whiteRef lineRef = true ↔
        reading < (whiteRef + lineRef) / 2 ∧ reading < s.thresholdLine)) ∧
    (s.lineIsDark = false →
      (detectLineValue s reading whiteRef lineRef = true ↔
        reading > (whiteRef + lineRef) / 2 ∧ reading > s.thresholdLine)) ∧
    (s.lineIsDark = true →
      (¬ reading < (whiteRef + lineRef) / 2 ∨ ¬ reading < s.thresholdLine) →
      detectLineValue s reading whiteRef lineRef = false) ∧
    (s.lineIsDark = false →
      (¬ reading > (whiteRef + lineRef) / 2 ∨ ¬ reading > s.thresholdLine) →
      detectLineValue s reading whiteRef lineRef = false) := by
  have hmid : cdiv (whiteRef + lineRef) 2 = (whiteRef + lineRef) / 2 :=
    cdiv_of_nonneg (by omega) (by decide)
  refine ⟨?_, ?_, ?_, ?_⟩
  · intro hd
    simp [detectLineValue, hd, hmid]
  · intro hd
    simp [detectLineValue, hd, hmid]
  · intro hd hfail
    simp only [detectLineValue, hd, hmid, if_true]
    rcases hfail with h | h
    · simp [h]
    · simp [h]
  · intro hd hfail
    simp only [detectLineValue, hd, hmid]
    rcases hfail with h | h
    · simp [h]
    · simp [h]

/-- Witness of C2: a dark-line state with threshold 600 at reading 120 and
references 900 and 100. -/
theorem detectLineValue_spec_witness :
    (detectLineValue powerUp 120 900 100 = true ↔
      (120 : Int) < (900 + 100) / 2 ∧ (120 : Int) < powerUp.thresholdLine) :=
  (detectLineValue_spec powerUp 120 900 100 (by decide) (by decide)).1 rfl

/-- C3: `detectLineValue` is monotone in the reading: with a dark line a true
result stays true for every smaller reading, with a light line for every larger
reading; references and threshold are arbitrary and held fixed. -/
theorem detectLineValue_mono (s : Robot) (whiteRef lineRef r r' : Int) :
    (s.lineIsDark = true → r' ≤ r →
      detectLineValue s r whiteRef lineRef = true →
      detectLineValue s r' whiteRef lineRef = true) ∧
    (s.lineIsDark = false → r ≤ r' →
      detectLineValue s r whiteRef lineRef = true →
      detectLineValue s r' whiteRef lineRef = true) := by
  constructor
  · intro hd hle h
    simp [detectLineValue, hd] at h ⊢
    exact ⟨lt_of_le_of_lt hle h.1, lt_of_le_of_lt hle h.2⟩
  · intro hd hle h
    simp [detectLineValue, hd] at h ⊢
    exact ⟨lt_of_lt_of_le h.1 hle, lt_of_lt_of_le h.2 hle⟩

/-- Witness of C3: dark line from reading 300 down to 200, light line from
reading 700 up to 800, references 900 and 100, threshold 600. -/
theorem detectLineValue_mono_witness :
    detectLineValue powerUp 200 900 100 = true ∧
    detectLineValue { powerUp with lineIsDark := false } 800 100 900 = true :=
  ⟨(detectLineValue_mono powerUp 900 100 300 200).1 rfl (by decide) (by decide),
   (detectLineValue_mono { powerUp with lineIsDark := false } 100 900 700 800).2
     rfl (by decide) (by decide)⟩

/-! ## The calibration engine -/

/-- C4 as stated fails: after calibrating with background levels 500, 500, 502 and
line levels 500, 500, 501 the polarity flag is false, although the sum (and so the
exact mean) of the line levels is below that of the background levels. -/
theorem calibrate_polarity_counterexample :
    ∃ s' e', calibrate powerUp (calibEnv 500 500 502 500 500 501 doneEnv) = some (s', e') ∧
      ¬ (s'.lineIsDark = true ↔
          s'.calibLineLeft + s'.calibLineCenter + s'.calibLineRight
            < s'.calibWhiteLeft + s'.calibWhiteCenter + s'.calibWhiteRight) ∧
      ¬ (s'.lineIsDark = true ↔
          ((s'.calibLineLeft + s'.calibLineCenter + s'.calibLineRight : Int) : ℚ) / 3
            < ((s'.calibWhiteLeft + s'.calibWhiteCenter + s'.calibWhiteRight : Int) : ℚ) / 3) := by
  refine ⟨_, _, calibrate_calibEnv powerUp 500 500 502 500 500 501 doneEnv, ?_, ?_⟩
  · simp [adjustThreshold, cdiv]
    decide
  · have h1 : Int.tdiv 1501 3 = 500 := by decide
    have h2 : Int.tdiv 1502 3 = 500 := by decide
    simp [adjustThreshold, cdiv, h1, h2]
    norm_num

/-- C4, amended: after every calibration the polarity flag is true exactly when
the truncated integer mean (sum divided by 3 in C) of the three line levels is
below the truncated integer mean of the three background levels; and whenever the
flag is true, the sum of the line levels is below the sum of the background levels. -/
theorem calibrate_polarity (s s' : Robot) (e e' : Env)
    (h : calibrate s e = some (s', e')) :
    (s'.lineIsDark = true ↔
      Int.tdiv (s'.calibLineLeft + s'.calibLineCenter + s'.calibLineRight) 3
        < Int.tdiv (s'.calibWhiteLeft + s'.calibWhiteCenter + s'.calibWhiteRight) 3) ∧
    (s'.lineIsDark = true →
      s'.calibLineLeft + s'.calibLineCenter + s'.calibLineRight
        < s'.calibWhiteLeft + s'.calibWhiteCenter + s'.calibWhiteRight) := by
  have hd := (calibrate_derived h).2
  have h3 : (0 : Int) ≤ 3 := by decide
  have key : s'.lineIsDark = true ↔
      Int.tdiv (s'.calibLineLeft + s'.calibLineCenter + s'.calibLineRight) 3
        < Int.tdiv (s'.calibWhiteLeft + s'.calibWhiteCenter + s'.calibWhiteRight) 3 := by
    rw [hd]
    simp [cdiv]
  refine ⟨key, fun hdark => ?_⟩
  have hlt := key.1 hdark
  have hl := cdiv_eq_ite (s'.calibLineLeft + s'.calibLineCenter + s'.calibLineRight) h3
  have hw := cdiv_eq_ite (s'.calibWhiteLeft + s'.calibWhiteCenter + s'.calibWhiteRight) h3
  unfold cdiv at hl hw
  rw [hl, hw] at hlt
  split_ifs at hlt <;> omega

/-- Witness of C4 (amended): background 900 and line 100 on all three sensors. -/
theorem calibrate_polarity_witness :
    ∃ s' e', calibrate powerUp (calibEnv 900 900 900 100 100 100 doneEnv) = some (s', e') ∧
      ((s'.lineIsDark = true ↔
        Int.tdiv (s'.calibLineLeft + s'.calibLineCenter + s'.calibLineRight) 3
          < Int.tdiv (s'.calibWhiteLeft + s'.calibWhiteCenter + s'.calibWhiteRight) 3) ∧
      (s'.lineIsDark = true →
        s'.calibLineLeft + s'.calibLineCenter + s'.calibLineRight
          < s'.calibWhiteLeft + s'.calibWhiteCenter + s'.calibWhiteRight)) :=
  ⟨_, _, calibrate_calibEnv powerUp 900 900 900 100 100 100 doneEnv,
    calibrate_polarity powerUp _ (calibEnv 900 900 900 100 100 100 doneEnv) _
      (calibrate_calibEnv powerUp 900 900 900 100 100 100 doneEnv)⟩

/-- C5: after a calibration whose six references are in 0..1023, the threshold
is `((wL + wC + wR) / 3 + (lL + lC + lR) / 3) / 2` with truncating division; it
lies between the integer mean line level and the integer mean background level
(inclusive, in whichever order they come) and in 0..1023. -/
theorem calibrate_threshold (s s' : Robot) (e e' : Env)
    (h : calibrate s e = some (s', e'))
    (hwL : 0 ≤ s'.calibWhiteLeft ∧ s'.calibWhiteLeft ≤ 1023)
    (hwC : 0 ≤ s'.calibWhiteCenter ∧ s'.calibWhiteCenter ≤ 1023)
    (hwR : 0 ≤ s'.calibWhiteRight ∧ s'.calibWhiteRight ≤ 1023)
    (hlL : 0 ≤ s'.calibLineLeft ∧ s'.calibLineLeft ≤ 1023)
    (hlC : 0 ≤ s'.calibLineCenter ∧ s'.calibLineCenter ≤ 1023)
    (hlR : 0 ≤ s'.calibLineRight ∧ s'.calibLineRight ≤ 1023) :
    s'.thresholdLine
      = Int.tdiv
          (Int.tdiv (s'.calibWhiteLeft + s'.calibWhiteCenter + s'.calibWhiteRight) 3
            + Int.tdiv (s'.calibLineLeft + s'.calibLineCenter + s'.calibLineRight) 3) 2 ∧
    min (Int.tdiv (s'.calibLineLeft + s'.calibLineCenter + s'.calibLineRight) 3)
        (Int.tdiv (s'.calibWhiteLeft + s'.calibWhiteCenter + s'.calibWhiteRight) 3)
      ≤ s'.thresholdLine ∧
    s'.thresholdLine
      ≤ max (Int.tdiv (s'.calibLineLeft + s'.calibLineCenter + s'.calibLineRight) 3)
            (Int.tdiv (s'.calibWhiteLeft + s'.calibWhiteCenter + s'.calibWhiteRight) 3) ∧
    0 ≤ s'.thresholdLine ∧ s'.thresholdLine ≤ 1023 := by
  have ht := (calibrate_derived h).1
  have hw : cdiv (s'.calibWhiteLeft + s'.calibWhiteCenter + s'.calibWhiteRight) 3
      = (s'.calibWhiteLeft + s'.calibWhiteCenter + s'.calibWhiteRight) / 3 :=
    cdiv_of_nonneg (by omega) (by decide)
  have hl : cdiv (s'.calibLineLeft + s'.calibLineCenter + s'.calibLineRight) 3
      = (s'.calibLineLeft + s'.calibLineCenter + s'.calibLineRight) / 3 :=
    cdiv_of_nonneg (by omega) (by decide)
  have hm : cdiv ((s'.calibWhiteLeft + s'.calibWhiteCenter + s'.calibWhiteRight) / 3
        + (s'.calibLineLeft + s'.calibLineCenter + s'.calibLineRight) / 3) 2
      = ((s'.calibWhiteLeft + s'.calibWhiteCenter + s'.calibWhiteRight) / 3
        + (s'.calibLineLeft + s'.calibLineCenter + s'.calibLineRight) / 3) / 2 :=
    cdiv_of_nonneg (by omega) (by decide)
  rw [hw, hl, hm] at ht
  unfold cdiv at hw hl hm
  rw [hw, hl, hm]
  refine ⟨ht, ?_, ?_, ?_, ?_⟩ <;> omega

/-- Witness of C5: background 900 and line 100 on all three sensors. -/
theorem calibrate_threshold_witness :
    ∃ s' e', calibrate powerUp (calibEnv 900 900 900 100 100 100 doneEnv) = some (s', e') ∧
      s'.thresholdLine = 500 ∧ 0 ≤ s'.thresholdLine ∧ s'.thresholdLine ≤ 1023 := by
  have h := calibrate_calibEnv powerUp 900 900 900 100 100 100 doneEnv
  have hc := calibrate_threshold powerUp _ (calibEnv 900 900 900 100 100 100 doneEnv) _ h
    (by decide) (by decide) (by decide) (by decide) (by decide) (by decide)
  exact ⟨_, _, h, by simp [adjustThreshold, cdiv]; decide, hc.2.2.2.1, hc.2.2.2.2⟩

/-- C6: when the button is pressed in both phases and every one of the 20 samples
of every sensor in both phases is the same value `r`, `calibrate` returns, from
any prior state, with all six references and the threshold equal to `r` and the
polarity flag false. -/
theorem calibrate_identical (s : Robot) (e : Env) (r : Int) (p q : Nat)
    (bt : List Bool) (lt ct rt : List Int)
    (hr : 0 ≤ r ∧ r ≤ 1023)
    (hb : e.button = List.replicate p HIGH ++ LOW :: (List.replicate q HIGH ++ LOW :: bt))
    (hL : e.left = List.replicate 20 r ++ (List.replicate 20 r ++ lt))
    (hC : e.center = List.replicate 20 r ++ (List.replicate 20 r ++ ct))
    (hR : e.right = List.replicate 20 r ++ (List.replicate 20 r ++ rt)) :
    ∃ s', calibrate s e
        = some (s', { e with button := bt, left := lt, center := ct, right := rt }) ∧
      s'.thresholdLine = r ∧
      s'.calibWhiteLeft = r ∧ s'.calibWhiteCenter = r ∧ s'.calibWhiteRight = r ∧
      s'.calibLineLeft = r ∧ s'.calibLineCenter = r ∧ s'.calibLineRight = r ∧
      s'.lineIsDark = false := by
  have h := calibrate_eq s e p q bt
    (List.replicate 20 r) (List.replicate 20 r) (List.replicate 20 r)
    (List.replicate 20 r) (List.replicate 20 r) (List.replicate 20 r) lt ct rt
    hb (by simp) (by simp) (by simp) (by simp) (by simp) (by simp) hL hC hR
  simp only [cdiv_sum_replicate] at h
  have h3 : cdiv (r + r + r) 3 = r := by
    rw [cdiv_of_nonneg (by omega) (by decide)]
    omega
  have h2 : cdiv (r + r) 2 = r := by
    rw [cdiv_of_nonneg (by omega) (by decide)]
    omega
  refine ⟨_, h, ?_⟩
  simp [adjustThreshold, h3, h2]

/-- Witness of C6: every sample is 512 and the button is pressed at once. -/
theorem calibrate_identical_witness :
    ∃ s', calibrate powerUp (calibEnv 512 512 512 512 512 512 doneEnv) = some (s', doneEnv) ∧
      s'.thresholdLine = 512 ∧
      s'.calibWhiteLeft = 512 ∧ s'.calibWhiteCenter = 512 ∧ s'.calibWhiteRight = 512 ∧
      s'.calibLineLeft = 512 ∧ s'.calibLineCenter = 512 ∧ s'.calibLineRight = 512 ∧
      s'.lineIsDark = false :=
  calibrate_identical powerUp (calibEnv 512 512 512 512 512 512 doneEnv) 512 0 0 [] [] [] []
    (by decide) rfl rfl rfl rfl

/-- C12: whatever the prior state and the readings, a calibration that returns
has changed only the six references, the threshold and the polarity flag: the
direction memory, the run state, both speeds, the LED and the motor pins are as
before, and the motor history is as before, so no motor command was emitted. -/
theorem calibrate_frame_effect (s s' : Robot) (e e' : Env)
    (h : calibrate s e = some (s', e')) :
    s' = { s with calibWhiteLeft := s'.calibWhiteLeft,
                  calibWhiteCenter := s'.calibWhiteCenter,
                  calibWhiteRight := s'.calibWhiteRight,
                  calibLineLeft := s'.calibLineLeft,
                  calibLineCenter := s'.calibLineCenter,
                  calibLineRight := s'.calibLineRight,
                  thresholdLine := s'.thresholdLine,
                  lineIsDark := s'.lineIsDark } ∧
    s'.lastDirection = s.lastDirection ∧ s'.running = s.running ∧
    s'.baseSpeed = s.baseSpeed ∧ s'.turnSpeed = s.turnSpeed ∧
    s'.motorLog = s.motorLog ∧
    s'.motorLDir = s.motorLDir ∧ s'.motorLPwm = s.motorLPwm ∧
    s'.motorRDir = s.motorRDir ∧ s'.motorRPwm = s.motorRPwm ∧
    s'.pinLed = s.pinLed ∧ e'.marker = e.marker := by
  have hf := calibrate_frame h
  refine ⟨hf, ?_, ?_, ?_, ?_, ?_, ?_, ?_, ?_, ?_, ?_, ?_⟩
  · rw [hf]
  · rw [hf]
  · rw [hf]
  · rw [hf]
  · rw [hf]
  · rw [hf]
  · rw [hf]
  · rw [hf]
  · rw [hf]
  · rw [hf]
  · exact calibrate_marker h

/-- Witness of C12: a calibration on constant levels from the scenario state,
whose memory is set to 1 and which has one motor command in its history. -/
theorem calibrate_frame_effect_witness :
    ∃ s' e', calibrate { scenarioState with lastDirection := 1, motorLog := [(200, 120)] }
        (calibEnv 300 310 320 700 710 720 doneEnv) = some (s', e') ∧
      s'.lastDirection = 1 ∧ s'.running = true ∧ s'.motorLog = [(200, 120)] :=
  ⟨_, _, calibrate_calibEnv _ 300 310 320 700 710 720 doneEnv,
    (calibrate_frame_effect
      { scenarioState with lastDirection := 1, motorLog := [(200, 120)] } _
      (calibEnv 300 310 320 700 710 720 doneEnv) _
      (calibrate_calibEnv _ 300 310 320 700 710 720 doneEnv)).2.1,
    (calibrate_frame_effect
      { scenarioState with lastDirection := 1, motorLog := [(200, 120)] } _
      (calibEnv 300 310 320 700 710 720 doneEnv) _
      (calibrate_calibEnv _ 300 310 320 700 710 720 doneEnv)).2.2.1,
    (calibrate_frame_effect
      { scenarioState with lastDirection := 1, motorLog := [(200, 120)] } _
      (calibEnv 300 310 320 700 710 720 doneEnv) _
      (calibrate_calibEnv _ 300 310 320 700 710 720 doneEnv)).2.2.2.2.2.1⟩

/-- C13: when the button is pressed in both phases and each sensor delivers 20
samples in 0..1023 per phase, `calibrate` returns, and each of the six
references is the sum of the 20 samples of its sensor and phase divided by 20,
lies between the smallest and the largest of them, and is in 0..1023. -/
theorem calibrate_sample_means (s : Robot) (e : Env) (p q : Nat) (bt : List Bool)
    (wl wc wr ll lc lr lt ct rt : List Int)
    (hb : e.button = List.replicate p HIGH ++ LOW :: (List.replicate q HIGH ++ LOW :: bt))
    (hwl : wl.length = 20 ∧ ∀ x ∈ wl, 0 ≤ x ∧ x ≤ 1023)
    (hwc : wc.length = 20 ∧ ∀ x ∈ wc, 0 ≤ x ∧ x ≤ 1023)
    (hwr : wr.length = 20 ∧ ∀ x ∈ wr, 0 ≤ x ∧ x ≤ 1023)
    (hll : ll.length = 20 ∧ ∀ x ∈ ll, 0 ≤ x ∧ x ≤ 1023)
    (hlc : lc.length = 20 ∧ ∀ x ∈ lc, 0 ≤ x ∧ x ≤ 1023)
    (hlr : lr.length = 20 ∧ ∀ x ∈ lr, 0 ≤ x ∧ x ≤ 1023)
    (hL : e.left = wl ++ (ll ++ lt)) (hC : e.center = wc ++ (lc ++ ct))
    (hR : e.right = wr ++ (lr ++ rt)) :
    ∃ s', calibrate s e
        = some (s', { e with button := bt, left := lt, center := ct, right := rt }) ∧
      sampleMean wl s'.calibWhiteLeft ∧ sampleMean wc s'.calibWhiteCenter ∧
      sampleMean wr s'.calibWhiteRight ∧ sampleMean ll s'.calibLineLeft ∧
      sampleMean lc s'.calibLineCenter ∧ sampleMean lr s'.calibLineRight := by
  refine ⟨_, calibrate_eq s e p q bt wl wc wr ll lc lr lt ct rt hb
    hwl.1 hwc.1 hwr.1 hll.1 hlc.1 hlr.1 hL hC hR, ?_⟩
  simp only [adjustThreshold]
  exact ⟨sampleMean_cdiv wl hwl.1 hwl.2, sampleMean_cdiv wc hwc.1 hwc.2,
    sampleMean_cdiv wr hwr.1 hwr.2, sampleMean_cdiv ll hll.1 hll.2,
    sampleMean_cdiv lc hlc.1 hlc.2, sampleMean_cdiv lr hlr.1 hlr.2⟩

/-- Witness of C13: constant levels 300, 310, 320 on the background and 700,
710, 720 on the line. -/
theorem calibrate_sample_means_witness :
    ∃ s', calibrate powerUp (calibEnv 300 310 320 700 710 720 doneEnv)
        = some (s', { calibEnv 300 310 320 700 710 720 doneEnv with
                      button := [], left := [], center := [], right := [] }) ∧
      sampleMean (List.replicate 20 300) s'.calibWhiteLeft ∧
      sampleMean (List.replicate 20 310) s'.calibWhiteCenter ∧
      sampleMean (List.replicate 20 320) s'.calibWhiteRight ∧
      sampleMean (List.replicate 20 700) s'.calibLineLeft ∧
      sampleMean (List.replicate 20 710) s'.calibLineCenter ∧
      sampleMean (List.replicate 20 720) s'.calibLineRight :=
  calibrate_sample_means powerUp (calibEnv 300 310 320 700 710 720 doneEnv) 0 0 []
    (List.replicate 20 300) (List.replicate 20 310) (List.replicate 20 320)
    (List.replicate 20 700) (List.replicate 20 710) (List.replicate 20 720) [] [] []
    rfl (by simp) (by simp) (by simp) (by simp) (by simp) (by simp) rfl rfl rfl

/-- C18: when a calibration ends with the same background level `w` and the
same line level `l` (both in 0..1023) on all three sensors, then under the
threshold and polarity it set a reading equal to `w` is not detected on any
sensor, for every `w` and `l`, equal ones included; and a reading equal to `l`
is detected on every sensor as soon as `l > w` or `w - l ≥ 2`. -/
theorem uniform_calibration_sound (s c : Robot) (e e' : Env) (w l : Int)
    (hcal : calibrate s e = some (c, e'))
    (hw : 0 ≤ w ∧ w ≤ 1023) (hl : 0 ≤ l ∧ l ≤ 1023)
    (hrefs : c.calibWhiteLeft = w ∧ c.calibWhiteCenter = w ∧ c.calibWhiteRight = w ∧
      c.calibLineLeft = l ∧ c.calibLineCenter = l ∧ c.calibLineRight = l) :
    detectLineValue c w w l = false ∧
    detections c w w w = (false, false, false) ∧
    ((l > w ∨ w - l ≥ 2) →
      detectLineValue c l w l = true ∧ detections c l l l = (true, true, true)) := by
  obtain ⟨hwL, hwC, hwR, hlL, hlC, hlR⟩ := hrefs
  obtain ⟨hthr, hdark⟩ := calibrate_derived hcal
  rw [hwL, hwC, hwR, hlL, hlC, hlR] at hthr hdark
  have h3w : cdiv (w + w + w) 3 = w := by
    rw [cdiv_of_nonneg (by omega) (by decide)]; omega
  have h3l : cdiv (l + l + l) 3 = l := by
    rw [cdiv_of_nonneg (by omega) (by decide)]; omega
  have hmid : cdiv (w + l) 2 = (w + l) / 2 := cdiv_of_nonneg (by omega) (by decide)
  rw [h3w, h3l, hmid] at hthr
  rw [h3w, h3l] at hdark
  have hbg : detectLineValue c w w l = false := by
    by_cases hlt : l < w
    · have hd : c.lineIsDark = true := by rw [hdark]; simp [hlt]
      simp only [detectLineValue, hd, if_true, hmid, hthr]
      simp only [Bool.and_self, decide_eq_false_iff_not]
      omega
    · have hd : c.lineIsDark = false := by rw [hdark]; simp [hlt]
      simp only [detectLineValue, hd, Bool.false_eq_true, if_false, hmid, hthr]
      simp only [Bool.and_self, decide_eq_false_iff_not]
      omega
  refine ⟨hbg, by simp [detections, hwL, hwC, hwR, hlL, hlC, hlR, hbg], ?_⟩
  intro hsep
  have hline : detectLineValue c l w l = true := by
    by_cases hlt : l < w
    · have hd : c.lineIsDark = true := by rw [hdark]; simp [hlt]
      simp only [detectLineValue, hd, if_true, hmid, hthr]
      simp only [Bool.and_self, decide_eq_true_eq]
      omega
    · have hd : c.lineIsDark = false := by rw [hdark]; simp [hlt]
      simp only [detectLineValue, hd, Bool.false_eq_true, if_false, hmid, hthr]
      simp only [Bool.and_self, decide_eq_true_eq]
      omega
  exact ⟨hline, by simp [detections, hwL, hwC, hwR, hlL, hlC, hlR, hline]⟩

/-- Witness of C18: calibration from power-up on background 900 and line 100. -/
theorem uniform_calibration_sound_witness :
    ∃ c e', calibrate powerUp (calibEnv 900 900 900 100 100 100 doneEnv) = some (c, e') ∧
      detectLineValue c 900 900 100 = false ∧
      detections c 900 900 900 = (false, false, false) ∧
      (((100 : Int) > 900 ∨ (900 : Int) - 100 ≥ 2) →
        detectLineValue c 100 900 100 = true ∧
        detections c 100 100 100 = (true, true, true)) :=
  ⟨_, _, calibrate_calibEnv powerUp 900 900 900 100 100 100 doneEnv,
    uniform_calibration_sound powerUp _ (calibEnv 900 900 900 100 100 100 doneEnv) _
      900 100 (calibrate_calibEnv powerUp 900 900 900 100 100 100 doneEnv)
      (by decide) (by decide) ⟨rfl, rfl, rfl, rfl, rfl, rfl⟩⟩

/-! ## Cycles of `loop` -/

/-- C8: scenario C.  In a running state calibrated to background 900 and line 100
on all three sensors (threshold 500, dark line), the cycle with readings
(120, 950, 950) has detections (true, false, false), emits (turnSpeed, baseSpeed)
and leaves memory -1 (LEFT); the marker reading `m1` of that cycle is at least 50,
so the robot keeps running, and the next cycle, with readings (950, 950, 950),
has detections (false, false, false) and emits (turnSpeed, -turnSpeed/2), followed
by the stop command only if its own marker reading is below 50. -/
theorem scenario_line_loss (s : Robot) (e : Env) (m1 m2 : Int)
    (lt ct rt mt : List Int)
    (hrun : s.running = true)
    (hcal : s.calibWhiteLeft = 900 ∧ s.calibWhiteCenter = 900 ∧ s.calibWhiteRight = 900 ∧
      s.calibLineLeft = 100 ∧ s.calibLineCenter = 100 ∧ s.calibLineRight = 100)
    (hthr : s.thresholdLine = 500) (hdark : s.lineIsDark = true)
    (hm1 : 50 ≤ m1)
    (hL : e.left = 120 :: 950 :: lt) (hC : e.center = 950 :: 950 :: ct)
    (hR : e.right = 950 :: 950 :: rt) (hM : e.marker = m1 :: m2 :: mt) :
    detections s 120 950 950 = (true, false, false) ∧
    ∃ s1 e1, loop s e = some (s1, e1) ∧
      s1.motorLog = s.motorLog ++ [(s.turnSpeed, s.baseSpeed)] ∧
      s1.lastDirection = -1 ∧
      detections s1 950 950 950 = (false, false, false) ∧
      ∃ s2 e2, loop s1 e1 = some (s2, e2) ∧
        s2.motorLog
          = s1.motorLog ++ (s.turnSpeed, Int.tdiv (-s.turnSpeed) 2)
              :: (if m2 < 50 then [(0, 0)] else []) := by
  obtain ⟨hwL, hwC, hwR, hlL, hlC, hlR⟩ := hcal
  have hmid : cdiv 1000 2 = 500 := by decide
  have hdet1 : detections s 120 950 950 = (true, false, false) := by
    simp [detections, detectLineValue, hwL, hwC, hwR, hlL, hlC, hlR, hthr, hdark, hmid]
  have h1 := loop_running s e 120 950 950 m1 (950 :: lt) (950 :: ct) (950 :: rt)
    (m2 :: mt) hrun hL hC hR hM
  rw [hdet1] at h1
  have hnot : ¬ m1 < 50 := by omega
  have hs1 : markerCheck (decision s true false false) m1
      = { setMotor s s.turnSpeed s.baseSpeed with lastDirection := -1 } := by
    simp [markerCheck, hnot, decision]
  rw [hs1] at h1
  have hdet2 : detections { setMotor s s.turnSpeed s.baseSpeed with lastDirection := -1 }
      950 950 950 = (false, false, false) := by
    simp [detections, detectLineValue, setMotor_eq, hwL, hwC, hwR, hlL, hlC, hlR, hthr,
      hdark, hmid]
  have h2 := loop_running { setMotor s s.turnSpeed s.baseSpeed with lastDirection := -1 }
    { e with marker := m2 :: mt, left := 950 :: lt, center := 950 :: ct,
             right := 950 :: rt }
    950 950 950 m2 lt ct rt mt (by simp [setMotor_eq, hrun]) rfl rfl rfl rfl
  rw [hdet2] at h2
  refine ⟨hdet1, _, _, h1, by simp [setMotor_eq], rfl, hdet2, _, _, h2, ?_⟩
  by_cases hm2 : m2 < 50
  · simp [markerCheck, hm2, stopRobot, decision, setMotor_eq, cdiv]
  · simp [markerCheck, hm2, decision, setMotor_eq, cdiv]

/-- Witness of C8: the running power-up state with the scenario calibration
(base speed 200, turn speed 120) and marker readings 600 in both cycles. -/
theorem scenario_line_loss_witness :
    detections scenarioState 120 950 950 = (true, false, false) ∧
    ∃ s1 e1, loop scenarioState lineLossEnv = some (s1, e1) ∧
      s1.motorLog = scenarioState.motorLog ++ [(scenarioState.turnSpeed, scenarioState.baseSpeed)] ∧
      s1.lastDirection = -1 ∧
      detections s1 950 950 950 = (false, false, false) ∧
      ∃ s2 e2, loop s1 e1 = some (s2, e2) ∧
        s2.motorLog
          = s1.motorLog ++ (scenarioState.turnSpeed, Int.tdiv (-scenarioState.turnSpeed) 2)
              :: (if (600 : Int) < 50 then [(0, 0)] else []) :=
  scenario_line_loss scenarioState lineLossEnv 600 600 [] [] [] []
    rfl ⟨rfl, rfl, rfl, rfl, rfl, rfl⟩ rfl rfl (by decide) rfl rfl rfl rfl

/-- C9: scenario A.  When a calibration ends with background reference 900 and
line reference 100 on all three sensors, it sets the threshold to 500 and the
polarity flag to true; in the running state it leads to, with memory 0 (CENTER),
the cycle with readings (950, 950, 950) has detections (false, false, false) and
emits (turnSpeed, turnSpeed), followed by the stop command only if the marker
reading is below 50. -/
theorem scenario_background (s c : Robot) (e e' : Env) (m : Int)
    (lt ct rt mt : List Int)
    (hcal : calibrate s e = some (c, e'))
    (hrefs : c.calibWhiteLeft = 900 ∧ c.calibWhiteCenter = 900 ∧ c.calibWhiteRight = 900 ∧
      c.calibLineLeft = 100 ∧ c.calibLineCenter = 100 ∧ c.calibLineRight = 100)
    (hmem : c.lastDirection = 0)
    (hL : e'.left = 950 :: lt) (hC : e'.center = 950 :: ct)
    (hR : e'.right = 950 :: rt) (hM : e'.marker = m :: mt) :
    c.thresholdLine = 500 ∧ c.lineIsDark = true ∧
    detections { c with running := true, pinLed := HIGH } 950 950 950
      = (false, false, false) ∧
    ∃ s2 e2, loop { c with running := true, pinLed := HIGH } e' = some (s2, e2) ∧
      s2.motorLog
        = c.motorLog ++ (c.turnSpeed, c.turnSpeed) :: (if m < 50 then [(0, 0)] else []) := by
  obtain ⟨hwL, hwC, hwR, hlL, hlC, hlR⟩ := hrefs
  obtain ⟨hthr, hdark⟩ := calibrate_derived hcal
  rw [hwL, hwC, hwR, hlL, hlC, hlR] at hthr hdark
  have hthr' : c.thresholdLine = 500 := by rw [hthr]; decide
  have hdark' : c.lineIsDark = true := by rw [hdark]; decide
  have hmid : cdiv 1000 2 = 500 := by decide
  have hdet : detections { c with running := true, pinLed := HIGH } 950 950 950
      = (false, false, false) := by
    simp [detections, detectLineValue, hwL, hwC, hwR, hlL, hlC, hlR, hthr', hdark', hmid]
  have h := loop_running { c with running := true, pinLed := HIGH } e' 950 950 950 m
    lt ct rt mt rfl hL hC hR hM
  rw [hdet] at h
  refine ⟨hthr', hdark', hdet, _, _, h, ?_⟩
  by_cases hm : m < 50
  · simp [markerCheck, hm, stopRobot, decision, setMotor_eq, hmem]
  · simp [markerCheck, hm, decision, setMotor_eq, hmem]

/-- Witness of C9: calibration from power-up on constant levels 900 and 100,
then one cycle with readings (950, 950, 950) and marker reading 600. -/
theorem scenario_background_witness :
    (adjustThreshold
      { powerUp with calibWhiteLeft := 900, calibWhiteCenter := 900,
                     calibWhiteRight := 900, calibLineLeft := 100,
                     calibLineCenter := 100, calibLineRight := 100 }).thresholdLine = 500 :=
  (scenario_background powerUp _
    (calibEnv 900 900 900 100 100 100 (cycleEnv 950 950 950 600)) _ 600 [] [] [] []
    (calibrate_calibEnv powerUp 900 900 900 100 100 100 (cycleEnv 950 950 950 600))
    ⟨rfl, rfl, rfl, rfl, rfl, rfl⟩ rfl rfl rfl rfl rfl).1

/-- C10: a running cycle ends stopped exactly when its marker reading is below
50.  In that case the stop command (0, 0) follows the command of the decision
block as the last motor command, both PWM outputs are 0 and the LED is low;
otherwise (reading 50 or more) the cycle ends in the state the decision block
left, still running, its command being the last one. -/
theorem marker_stop (s : Robot) (e : Env) (vL vC vR m : Int)
    (lt ct rt mt : List Int)
    (hrun : s.running = true)
    (hL : e.left = vL :: lt) (hC : e.center = vC :: ct) (hR : e.right = vR :: rt)
    (hM : e.marker = m :: mt) :
    ∃ s' e' cmd, loop s e = some (s', e') ∧
      (decision s (detections s vL vC vR).1 (detections s vL vC vR).2.1
          (detections s vL vC vR).2.2).motorLog = s.motorLog ++ [cmd] ∧
      (s'.running = false ↔ m < 50) ∧
      (m < 50 →
        s'.motorLog = s.motorLog ++ [cmd, (0, 0)] ∧
        s'.motorLog.getLast? = some (0, 0) ∧
        s'.motorLPwm = 0 ∧ s'.motorRPwm = 0 ∧ s'.pinLed = LOW) ∧
      (50 ≤ m →
        s'.running = true ∧
        s' = decision s (detections s vL vC vR).1 (detections s vL vC vR).2.1
              (detections s vL vC vR).2.2 ∧
        s'.motorLog.getLast? = some cmd) := by
  obtain ⟨cmd, hcmd⟩ := decision_emits s (detections s vL vC vR).1
    (detections s vL vC vR).2.1 (detections s vL vC vR).2.2
  have hdrun := decision_running s (detections s vL vC vR).1
    (detections s vL vC vR).2.1 (detections s vL vC vR).2.2
  refine ⟨_, _, cmd, loop_running s e vL vC vR m lt ct rt mt hrun hL hC hR hM, hcmd, ?_, ?_, ?_⟩
  · by_cases hm : m < 50
    · simp [markerCheck, hm, stopRobot]
    · simp [markerCheck, hm, hdrun, hrun]
  · intro hm
    simp [markerCheck, hm, stopRobot, setMotor_eq, hcmd, constrain]
  · intro hm
    have hnot : ¬ m < 50 := by omega
    simp [markerCheck, hnot, hdrun, hrun, hcmd]

/-- Witness of C10: a running cycle from the power-up values with readings
(120, 950, 950) and marker reading 30. -/
theorem marker_stop_witness :
    ∃ s' e' cmd, loop { powerUp with running := true } (cycleEnv 120 950 950 30)
        = some (s', e') ∧
      (decision { powerUp with running := true }
          (detections { powerUp with running := true } 120 950 950).1
          (detections { powerUp with running := true } 120 950 950).2.1
          (detections { powerUp with running := true } 120 950 950).2.2).motorLog
        = ({ powerUp with running := true } : Robot).motorLog ++ [cmd] ∧
      (s'.running = false ↔ (30 : Int) < 50) ∧
      ((30 : Int) < 50 →
        s'.motorLog = ({ powerUp with running := true } : Robot).motorLog ++ [cmd, (0, 0)] ∧
        s'.motorLog.getLast? = some (0, 0) ∧
        s'.motorLPwm = 0 ∧ s'.motorRPwm = 0 ∧ s'.pinLed = LOW) ∧
      ((50 : Int) ≤ 30 →
        s'.running = true ∧
        s' = decision { powerUp with running := true }
              (detections { powerUp with running := true } 120 950 950).1
              (detections { powerUp with running := true } 120 950 950).2.1
              (detections { powerUp with running := true } 120 950 950).2.2 ∧
        s'.motorLog.getLast? = some cmd) :=
  marker_stop { powerUp with running := true } (cycleEnv 120 950 950 30)
    120 950 950 30 [] [] [] [] rfl rfl rfl rfl rfl

/-! ## Detection under either polarity -/

/-- C19: for every reading, references and threshold, `detectLineValue` is not
true under both polarities at once; and a reading equal to the midpoint
`(whiteRef + lineRef) / 2` or equal to `thresholdLine` is reported as not on the
line under either polarity. -/
theorem detectLineValue_exclusive (s : Robot) (value whiteRef lineRef : Int) :
    ¬ (detectLineValue { s with lineIsDark := true } value whiteRef lineRef = true ∧
       detectLineValue { s with lineIsDark := false } value whiteRef lineRef = true) ∧
    detectLineValue { s with lineIsDark := true }
      (cdiv (whiteRef + lineRef) 2) whiteRef lineRef = false ∧
    detectLineValue { s with lineIsDark := false }
      (cdiv (whiteRef + lineRef) 2) whiteRef lineRef = false ∧
    detectLineValue { s with lineIsDark := true } s.thresholdLine whiteRef lineRef = false ∧
    detectLineValue { s with lineIsDark := false } s.thresholdLine whiteRef lineRef
      = false := by
  refine ⟨?_, ?_, ?_, ?_, ?_⟩
  · intro h
    simp only [detectLineValue, if_true, Bool.false_eq_true, if_false, Bool.and_eq_true,
      decide_eq_true_eq] at h
    omega
  · simp [detectLineValue]
  · simp [detectLineValue]
  · simp [detectLineValue]
  · simp [detectLineValue]

/-! ## The run controller -/

/-- C11: when `setup` has returned the LED is on and the robot is running, and
after any number of iterations of `loop` that follow, on whatever inputs, the
LED is on exactly when the robot is running. -/
theorem led_iff_running (s0 s1 s' : Robot) (e0 e1 e' : Env) (n : Nat)
    (hsetup : setup s0 e0 = some (s1, e1))
    (hloops : loops n s1 e1 = some (s', e')) :
    (s1.pinLed = HIGH ∧ s1.running = true) ∧
    (s'.pinLed = HIGH ↔ s'.running = true) := by
  obtain ⟨hled, hrun, _⟩ := setup_end hsetup
  have hinv := loops_led n s1 s' e1 e' hloops (by rw [hled, hrun])
  refine ⟨⟨hled, hrun⟩, ?_⟩
  rw [hinv]

/-- Witness of C11: `setup` from power-up on `runEnv` and the two cycles that
follow, the second of which stops at the marker. -/
theorem led_iff_running_witness :
    ∃ s1 e1 s' e', setup powerUp runEnv = some (s1, e1) ∧
      loops 2 s1 e1 = some (s', e') ∧
      ((s1.pinLed = HIGH ∧ s1.running = true) ∧
        (s'.pinLed = HIGH ↔ s'.running = true)) :=
  ⟨_, _, _, _, rfl, rfl, led_iff_running powerUp _ _ runEnv _ _ 2 rfl rfl⟩

/-- C15: the direction memory is 0 (CENTER) at power-up, still 0 when `setup`
has returned, and one of -1, 0, 1 after any number of iterations of `loop`
that follow, on whatever inputs, stops and recalibrations included. -/
theorem lastDirection_invariant (s1 s' : Robot) (e0 e1 e' : Env) (n : Nat)
    (hsetup : setup powerUp e0 = some (s1, e1))
    (hloops : loops n s1 e1 = some (s', e')) :
    powerUp.lastDirection = 0 ∧ s1.lastDirection = 0 ∧
    (s'.lastDirection = -1 ∨ s'.lastDirection = 0 ∨ s'.lastDirection = 1) := by
  have h1 : s1.lastDirection = 0 := (setup_end hsetup).2.2
  exact ⟨rfl, h1, loops_memory n s1 s' e1 e' hloops (Or.inr (Or.inl h1))⟩

/-- Witness of C15: `setup` from power-up on `runEnv` and the two cycles that
follow; the first sees the line on the left, so the memory ends as -1. -/
theorem lastDirection_invariant_witness :
    ∃ s1 e1 s' e', setup powerUp runEnv = some (s1, e1) ∧
      loops 2 s1 e1 = some (s', e') ∧
      (powerUp.lastDirection = 0 ∧ s1.lastDirection = 0 ∧
        (s'.lastDirection = -1 ∨ s'.lastDirection = 0 ∨ s'.lastDirection = 1)) :=
  ⟨_, _, _, _, rfl, rfl, lastDirection_invariant _ _ runEnv _ _ 2 rfl rfl⟩

/-- C16: an iteration of `loop` entered while stopped emits no motor command,
leaves the motor pins, the direction memory and the marker input as they were
and reads the sensors only inside `calibrate`.  If the button reads HIGH (not
pressed) the whole state is unchanged and only that one button read is consumed;
if it reads LOW the iteration is exactly `calibrate` followed by setting the run
state and the LED, so whenever it returns the robot is running with the LED on. -/
theorem stopped_iteration (s : Robot) (e : Env) (hstop : s.running = false) :
    (∀ bt, e.button = HIGH :: bt → loop s e = some (s, { e with button := bt })) ∧
    (∀ bt, e.button = LOW :: bt →
      loop s e
        = (calibrate s { e with button := bt }).map
            (fun r => ({ r.1 with running := true, pinLed := HIGH }, r.2))) ∧
    (∀ bt s' e', e.button = LOW :: bt → loop s e = some (s', e') →
      s'.running = true ∧ s'.pinLed = HIGH) ∧
    (∀ s' e', loop s e = some (s', e') →
      s'.motorLog = s.motorLog ∧ s'.lastDirection = s.lastDirection ∧
      s'.motorLDir = s.motorLDir ∧ s'.motorLPwm = s.motorLPwm ∧
      s'.motorRDir = s.motorRDir ∧ s'.motorRPwm = s.motorRPwm ∧
      e'.marker = e.marker) := by
  refine ⟨fun bt hb => loop_stopped_high s e bt hstop hb,
    fun bt hb => loop_stopped_low s e bt hstop hb, ?_, ?_⟩
  · intro bt s' e' hb h
    rcases loop_cases h with ⟨_, bt', hb', _, _⟩ | ⟨_, bt', c, _, _, hs⟩ | ⟨hrun, _⟩
    · rw [hb] at hb'
      simp at hb'
    · rw [hs]
      exact ⟨rfl, rfl⟩
    · rw [hstop] at hrun
      simp at hrun
  · intro s' e' h
    rcases loop_cases h with ⟨_, bt, _, hs, he⟩ | ⟨_, bt, c, _, hc, hs⟩ | ⟨hrun, _⟩
    · rw [hs, he]
      exact ⟨rfl, rfl, rfl, rfl, rfl, rfl, rfl⟩
    · have hf := calibrate_frame hc
      have hm := calibrate_marker hc
      rw [hs]
      refine ⟨?_, ?_, ?_, ?_, ?_, ?_, hm⟩ <;> (simp only; rw [hf])
    · rw [hstop] at hrun
      simp at hrun

/-- Witness of C16: the stopped power-up state with the button pressed; the
iteration calibrates on `restartEnv` and ends running with the LED on. -/
theorem stopped_iteration_witness :
    ∃ s' e', loop powerUp restartEnv = some (s', e') ∧
      s'.running = true ∧ s'.pinLed = HIGH :=
  ⟨_, _, rfl, (stopped_iteration powerUp restartEnv rfl).2.2.1 [LOW, LOW] _ _ rfl rfl⟩

end Buzzline
